import Mathlib

/-!
Verification of the login endpoint of this repository.

The code under scrutiny is `apps/api/serializers.py` (`LoginSerializer`, an
email field and a write-only character field with the library defaults) and
`apps/api/views.py` (`LoginAPIView.post`, which runs the serializer, calls
the external `authenticate` capability on success, establishes a session via
`login` when a principal is returned, and maps the three outcomes to the
HTTP responses 200 / 400 / 401).

The embedding models the library validation semantics the serializer relies
on (rest_framework `CharField.run_validation` with its defaults
`required=True`, `allow_blank=False`, `trim_whitespace=True`, and
`EmailField` which additionally runs an email-syntax validator on the
trimmed value).  The email-syntax predicate is kept abstract in every claim
theorem (a parameter `validEmail : String → Bool`); a concrete executable
instance `emailOk`, modelling the core of the Django validator, is provided
to build witnesses and counterexamples.  The `authenticate` capability is an
abstract parameter `String → String → Option P`; session establishment and
the arguments passed to `authenticate` are recorded as explicit effects.
-/

namespace DjangoStartKit

/-- The ASCII whitespace characters stripped by Python `str.strip()`
(space, tab, newline, carriage return, vertical tab, form feed). -/
def pyIsSpace (c : Char) : Bool :=
  c == ' ' || c == '\t' || c == '\n' || c == '\r' ||
    c == Char.ofNat 11 || c == Char.ofNat 12

/-- Python `str.strip()` on the modelled character set: drop leading and
trailing whitespace. -/
def pyStrip (s : String) : String :=
  ⟨((s.toList.dropWhile pyIsSpace).reverse.dropWhile pyIsSpace).reverse⟩

/-- Outcome of running one serializer field on the value present in the
payload (`none` when the key is absent). -/
inductive FieldResult
  | ok (value : String)
  | errs (messages : List String)
deriving DecidableEq

/-- rest_framework `CharField.run_validation` with the defaults used by
`LoginSerializer.password` (`required=True`, `allow_blank=False`,
`trim_whitespace=True`): a missing value fails as required, a value that is
empty after trimming fails as blank, otherwise the trimmed string is the
validated value. -/
def charFieldRunValidation : Option String → FieldResult
  | none => .errs ["This field is required."]
  | some s =>
    if pyStrip s = "" then .errs ["This field may not be blank."]
    else .ok (pyStrip s)

/-- rest_framework `EmailField.run_validation` (used by
`LoginSerializer.email`): the `CharField` behaviour above, plus the
email-syntax validator run on the trimmed value.  The syntax predicate is a
parameter. -/
def emailFieldRunValidation (validEmail : String → Bool) :
    Option String → FieldResult
  | none => .errs ["This field is required."]
  | some s =>
    if pyStrip s = "" then .errs ["This field may not be blank."]
    else if validEmail (pyStrip s) then .ok (pyStrip s)
    else .errs ["Enter a valid email address."]

/-- The login request payload as far as the serializer reads it: each of the
two declared fields is either absent or a string. -/
structure RequestData where
  email : Option String
  password : Option String
deriving DecidableEq

/-- Result of `LoginSerializer.is_valid()` plus `validated_data` /
`errors`: either both fields validated, or the per-field error mapping. -/
inductive SerializerOutcome
  | valid (email password : String)
  | invalid (errors : List (String × List String))
deriving DecidableEq

/-- The contribution of one field to the serializer `errors` mapping. -/
def fieldErrors (name : String) : FieldResult → List (String × List String)
  | .ok _ => []
  | .errs ms => [(name, ms)]

/-- `LoginSerializer` validation (serializers.py lines 3-9): run the two
declared fields in declaration order; the serializer-level `validate` hook
returns the data unchanged (lines 7-9), so there is no cross-field rule. -/
def LoginSerializer.run_validation (validEmail : String → Bool)
    (d : RequestData) : SerializerOutcome :=
  match emailFieldRunValidation validEmail d.email,
      charFieldRunValidation d.password with
  | .ok e, .ok p => .valid e p
  | re, rp => .invalid (fieldErrors "email" re ++ fieldErrors "password" rp)

/-- A JSON value of the shapes this endpoint puts in response bodies:
a string, or an array of strings (the per-field error messages). -/
inductive JVal
  | str (s : String)
  | strList (items : List String)
deriving DecidableEq

/-- A response body: a JSON object, modelled as an association list in
serialization order. -/
abbrev RespBody := List (String × JVal)

/-- An HTTP response as produced by the view. -/
structure Response where
  status : Nat
  body : RespBody
deriving DecidableEq

/-- The observable effects of one invocation of the view: the argument pair
`authenticate` was called with (if it was called), and the principal a
session was established for via `login` (if one was). -/
structure Effects (P : Type) where
  authCalledWith : Option (String × String)
  sessionUser : Option P

/-- Body of the 200 response (views.py lines 18-21). -/
def successBody : RespBody :=
  [("message", .str "Login successful"), ("redirect_url", .str "/dashboard/")]

/-- Body of the 401 response (views.py lines 23-25). -/
def invalidCredentialsBody : RespBody :=
  [("error", .str "Invalid credentials")]

/-- Body of the 400 response: `serializer.errors` rendered as JSON
(views.py line 27). -/
def errorsBody (errors : List (String × List String)) : RespBody :=
  errors.map fun kv => (kv.1, .strList kv.2)

/-- `LoginAPIView.post` (views.py lines 9-27): run the serializer; if valid,
call `authenticate` on the validated email and password, and either
establish a session and answer 200, or answer 401; if invalid, answer 400
with the field errors.  Returns the response together with the effects. -/
def LoginAPIView.post {P : Type} (validEmail : String → Bool)
    (auth : String → String → Option P) (d : RequestData) :
    Response × Effects P :=
  match LoginSerializer.run_validation validEmail d with
  | .valid email password =>
    match auth email password with
    | some user => (⟨200, successBody⟩, ⟨some (email, password), some user⟩)
    | none => (⟨401, invalidCredentialsBody⟩, ⟨some (email, password), none⟩)
  | .invalid errors => (⟨400, errorsBody errors⟩, ⟨none, none⟩)

/-- Split a character list on a separator character (Python `str.split(sep)`
restricted to a one-character separator). -/
def splitOnChar (sep : Char) : List Char → List (List Char)
  | [] => [[]]
  | c :: cs =>
    match splitOnChar sep cs with
    | [] => if c == sep then [[], []] else [[c]]
    | r :: rs => if c == sep then [] :: r :: rs else (c :: r) :: rs

/-- Characters admitted in a dot-atom component of the user part of an
email address (the character class of the Django user-part pattern:
letters, digits, and the specials `-!#$%&*+/=?^_|~` together with the
apostrophe, backtick and both braces, written via their code points). -/
def userPartChar (c : Char) : Bool :=
  c.isAlphanum ||
    ['-', '!', '#', '$', '%', '&', '*', '+', '/', '=', '?', '^', '_', '|',
      '~'].contains c ||
    c == Char.ofNat 39 || c == Char.ofNat 96 || c == Char.ofNat 123 ||
    c == Char.ofNat 125

/-- Dot-atom form of the user part: one or more nonempty runs of admitted
characters separated by single dots. -/
def dotAtomOk (u : List Char) : Bool :=
  (splitOnChar '.' u).all fun part => !part.isEmpty && part.all userPartChar

/-- One non-final domain label: 1 to 63 characters, alphanumeric at both
ends, alphanumeric or hyphen inside. -/
def hostLabelOk (lab : List Char) : Bool :=
  match lab with
  | [] => false
  | c :: cs =>
    decide ((c :: cs).length ≤ 63) && c.isAlphanum &&
      (cs.getLastD c).isAlphanum &&
      (c :: cs).all fun x => x.isAlphanum || x == '-'

/-- The final domain label: 2 to 63 characters, alphanumeric or hyphen, not
ending in a hyphen. -/
def tldLabelOk (lab : List Char) : Bool :=
  decide (2 ≤ lab.length) && decide (lab.length ≤ 63) &&
    (lab.all fun x => x.isAlphanum || x == '-') &&
    (lab.getLastD '-').isAlphanum

/-- Domain part: at least two dot-separated labels, every non-final label a
host label and the final one a top-level label. -/
def domainPartOk (dom : List Char) : Bool :=
  match (splitOnChar '.' dom).reverse with
  | [] => false
  | [_] => false
  | tld :: labs => tldLabelOk tld && labs.all hostLabelOk

/-- Email-syntax check, modelling the core of the Django `EmailValidator`
installed by the rest_framework `EmailField`: the value is nonempty and at
most 320 characters, contains an at sign, the part before the last at sign
is a dot-atom, and the part after it is either the literal `localhost`
(the default domain allowlist) or a well-formed domain.  The quoted-string
user part, the bracketed IP-literal domain, and the IDNA punycode fallback
accepted by Django are not modelled; every claim theorem is quantified over
an arbitrary syntax predicate, and this function only instantiates concrete
witnesses and counterexamples. -/
def emailOk (s : String) : Bool :=
  let cs := s.toList
  !cs.isEmpty && decide (cs.length ≤ 320) && cs.contains '@' &&
    match (splitOnChar '@' cs).reverse with
    | [] => false
    | [_] => false
    | dom :: userRev =>
      dotAtomOk (List.intercalate ['@'] userRev.reverse) &&
        (dom == "localhost".toList || domainPartOk dom)

/-- A concrete authentication backend used to instantiate witnesses: it
knows the single principal `1`, reachable with the fixture credentials. -/
def demoAuth (e p : String) : Option Nat :=
  if e == "user@example.com" && p == "hunter2" then some 1 else none

/-- Does the character list `n` occur as a contiguous run inside `h`? -/
def containsRun (n : List Char) : List Char → Bool
  | [] => n.isEmpty
  | c :: cs => n.isPrefixOf (c :: cs) || containsRun n cs

/-- Does `needle` occur as a contiguous substring of `hay`? -/
def strContains (hay needle : String) : Bool :=
  containsRun needle.toList hay.toList

/-- The string components of one JSON value. -/
def JVal.strings : JVal → List String
  | .str s => [s]
  | .strList items => items

/-- Every string occurring in a response body, keys included, in order. -/
def bodyStrings : RespBody → List String
  | [] => []
  | (k, v) :: rest => k :: (JVal.strings v ++ bodyStrings rest)

/-- Does `needle` occur as a substring of any string of the body (keys and
values alike, i.e. anywhere in the serialized JSON text)? -/
def bodyContains (b : RespBody) (needle : String) : Bool :=
  (bodyStrings b).any fun s => strContains s needle

/-- The fixed literal strings out of which every response body of the
endpoint is built: the two field names, the five error and success
messages, and the three object keys. -/
def fixedBodyStrings : List String :=
  ["message", "Login successful", "redirect_url", "/dashboard/", "error",
    "Invalid credentials", "email", "password", "This field is required.",
    "This field may not be blank.", "Enter a valid email address."]

/-- The three possible outcomes of one invocation of the endpoint. -/
inductive Outcome
  | success
  | validationError
  | invalidCredentials
deriving DecidableEq

/-- What it means for a response to realise a given outcome: the status
code and the body shape of that branch of the view. -/
def outcomeMatches (o : Outcome) (r : Response) : Prop :=
  match o with
  | .success => r.status = 200 ∧ r.body = successBody
  | .validationError =>
    r.status = 400 ∧ ∃ errors, errors ≠ [] ∧ r.body = errorsBody errors
  | .invalidCredentials =>
    r.status = 401 ∧ r.body = invalidCredentialsBody

/-! Helper lemmas shared by the claim theorems. -/

/-- The email field produces either a validated value or one of its three
fixed error messages. -/
theorem emailField_result_cases (validEmail : String → Bool)
    (o : Option String) :
    (∃ v, emailFieldRunValidation validEmail o = .ok v) ∨
      emailFieldRunValidation validEmail o =
        .errs ["This field is required."] ∨
      emailFieldRunValidation validEmail o =
        .errs ["This field may not be blank."] ∨
      emailFieldRunValidation validEmail o =
        .errs ["Enter a valid email address."] := by
  cases o with
  | none => exact Or.inr (Or.inl rfl)
  | some s =>
    by_cases hb : pyStrip s = ""
    · exact Or.inr (Or.inr (Or.inl (by simp [emailFieldRunValidation, hb])))
    · by_cases hv : validEmail (pyStrip s) = true
      · exact Or.inl ⟨pyStrip s, by simp [emailFieldRunValidation, hb, hv]⟩
      · exact Or.inr (Or.inr (Or.inr
          (by simp [emailFieldRunValidation, hb, hv])))

/-- The password field produces either a validated value or one of its two
fixed error messages. -/
theorem charField_result_cases (o : Option String) :
    (∃ v, charFieldRunValidation o = .ok v) ∨
      charFieldRunValidation o = .errs ["This field is required."] ∨
      charFieldRunValidation o = .errs ["This field may not be blank."] := by
  cases o with
  | none => exact Or.inr (Or.inl rfl)
  | some s =>
    by_cases hb : pyStrip s = ""
    · exact Or.inr (Or.inr (by simp [charFieldRunValidation, hb]))
    · exact Or.inl ⟨pyStrip s, by simp [charFieldRunValidation, hb]⟩

/-- A validated email value is the trimmed submitted string. -/
theorem emailField_ok_val (validEmail : String → Bool) (s v : String)
    (h : emailFieldRunValidation validEmail (some s) = .ok v) :
    v = pyStrip s := by
  simp only [emailFieldRunValidation] at h
  split at h
  · exact absurd h (by simp)
  · split at h
    · exact (FieldResult.ok.inj h).symm
    · exact absurd h (by simp)

/-- A validated password value is the trimmed submitted string. -/
theorem charField_ok_val (s v : String)
    (h : charFieldRunValidation (some s) = .ok v) : v = pyStrip s := by
  simp only [charFieldRunValidation] at h
  split at h
  · exact absurd h (by simp)
  · exact (FieldResult.ok.inj h).symm

/-- A blank (after trimming) password is rejected: 400 response carrying
the blank error under the password key, and authenticate is not called. -/
theorem blank_password_400 {P : Type} (validEmail : String → Bool)
    (auth : String → String → Option P) (d : RequestData) (pw : String)
    (hp : d.password = some pw) (hb : pyStrip pw = "") :
    (LoginAPIView.post validEmail auth d).1.status = 400 ∧
    ("password", JVal.strList ["This field may not be blank."]) ∈
      (LoginAPIView.post validEmail auth d).1.body ∧
    (LoginAPIView.post validEmail auth d).2.authCalledWith = none := by
  have hpf : charFieldRunValidation d.password =
      .errs ["This field may not be blank."] := by
    simp [charFieldRunValidation, hp, hb]
  rcases he : emailFieldRunValidation validEmail d.email with v | ms <;>
    refine ⟨?_, ?_, ?_⟩ <;>
      simp [LoginAPIView.post, LoginSerializer.run_validation, he, hpf,
        fieldErrors, errorsBody]

/-- If the serializer reports errors, the error mapping is nonempty. -/
theorem run_validation_invalid_ne_nil (validEmail : String → Bool)
    (d : RequestData) (errors : List (String × List String))
    (h : LoginSerializer.run_validation validEmail d = .invalid errors) :
    errors ≠ [] := by
  rcases emailField_result_cases validEmail d.email with ⟨v, he⟩ | he | he | he <;>
    rcases charField_result_cases d.password with ⟨w, hp⟩ | hp | hp <;>
      simp only [LoginSerializer.run_validation, he, hp, fieldErrors] at h <;>
      (intro hc; rw [hc] at h; simp at h)

/-- Every string in any response body of the endpoint is one of the fixed
literals. -/
theorem post_strings_fixed {P : Type} (validEmail : String → Bool)
    (auth : String → String → Option P) (d : RequestData) :
    ∀ x ∈ bodyStrings (LoginAPIView.post validEmail auth d).1.body,
      x ∈ fixedBodyStrings := by
  rcases emailField_result_cases validEmail d.email with ⟨v, he⟩ | he | he | he <;>
    rcases charField_result_cases d.password with ⟨w, hp⟩ | hp | hp <;>
      simp only [LoginAPIView.post, LoginSerializer.run_validation, he, hp,
        fieldErrors, errorsBody, List.map, List.nil_append, List.append_nil,
        List.cons_append] <;>
      first
        | (rcases ha : auth v w with _ | u <;> simp only [ha] <;> decide)
        | decide

/-! The claim theorems. -/

/-- C1: a POST /login/ request that validates to an email/password pair for
which authenticate returns a principal is answered with status 200 and
exactly the body with message "Login successful" and redirect_url
"/dashboard/". -/
theorem C1_valid_credentials_success {P : Type} (validEmail : String → Bool)
    (auth : String → String → Option P) (d : RequestData) (e p : String)
    (u : P)
    (hv : LoginSerializer.run_validation validEmail d = .valid e p)
    (ha : auth e p = some u) :
    (LoginAPIView.post validEmail auth d).1 = ⟨200, successBody⟩ := by
  simp [LoginAPIView.post, hv, ha]

/-- C1 witness: the fixture credentials validate, authenticate on them
returns principal 1, and the response is the 200 success response. -/
theorem C1_valid_credentials_success_witness :
    LoginSerializer.run_validation emailOk
        ⟨some "user@example.com", some "hunter2"⟩ =
      .valid "user@example.com" "hunter2" ∧
    demoAuth "user@example.com" "hunter2" = some 1 ∧
    (LoginAPIView.post emailOk demoAuth
        ⟨some "user@example.com", some "hunter2"⟩).1 = ⟨200, successBody⟩ :=
  ⟨by decide, by decide,
    C1_valid_credentials_success emailOk demoAuth
      ⟨some "user@example.com", some "hunter2"⟩ "user@example.com" "hunter2"
      1 (by decide) (by decide)⟩

/-- C3: a POST /login/ request that passes validation but for which
authenticate returns none is answered with status 401 and exactly the body
with error "Invalid credentials". -/
theorem C3_auth_failure_401 {P : Type} (validEmail : String → Bool)
    (auth : String → String → Option P) (d : RequestData) (e p : String)
    (hv : LoginSerializer.run_validation validEmail d = .valid e p)
    (ha : auth e p = none) :
    (LoginAPIView.post validEmail auth d).1 = ⟨401, invalidCredentialsBody⟩ := by
  simp [LoginAPIView.post, hv, ha]

/-- C3 witness: a known email with a wrong password validates, authenticate
rejects it, and the response is the 401 invalid-credentials response. -/
theorem C3_auth_failure_401_witness :
    LoginSerializer.run_validation emailOk
        ⟨some "user@example.com", some "wrongpass"⟩ =
      .valid "user@example.com" "wrongpass" ∧
    demoAuth "user@example.com" "wrongpass" = none ∧
    (LoginAPIView.post emailOk demoAuth
        ⟨some "user@example.com", some "wrongpass"⟩).1 =
      ⟨401, invalidCredentialsBody⟩ :=
  ⟨by decide, by decide,
    C3_auth_failure_401 emailOk demoAuth
      ⟨some "user@example.com", some "wrongpass"⟩ "user@example.com"
      "wrongpass" (by decide) (by decide)⟩

/-- C4: two validated requests that both fail authentication receive
identical responses (the 401 invalid-credentials response), whether the
email belongs to a known principal or not. -/
theorem C4_uniform_failure {P : Type} (validEmail : String → Bool)
    (auth : String → String → Option P) (d1 d2 : RequestData)
    (e1 p1 e2 p2 : String)
    (h1 : LoginSerializer.run_validation validEmail d1 = .valid e1 p1)
    (h2 : LoginSerializer.run_validation validEmail d2 = .valid e2 p2)
    (ha1 : auth e1 p1 = none) (ha2 : auth e2 p2 = none) :
    (LoginAPIView.post validEmail auth d1).1 =
      (LoginAPIView.post validEmail auth d2).1 ∧
    (LoginAPIView.post validEmail auth d1).1 =
      ⟨401, invalidCredentialsBody⟩ := by
  constructor <;> simp [LoginAPIView.post, h1, h2, ha1, ha2]

/-- C4 witness: an unknown email and a known email with a wrong password
produce the same 401 response. -/
theorem C4_uniform_failure_witness :
    demoAuth "nobody@example.com" "hunter2" = none ∧
    demoAuth "user@example.com" "wrongpass" = none ∧
    (LoginAPIView.post emailOk demoAuth
        ⟨some "nobody@example.com", some "hunter2"⟩).1 =
      (LoginAPIView.post emailOk demoAuth
        ⟨some "user@example.com", some "wrongpass"⟩).1 :=
  ⟨by decide, by decide,
    (C4_uniform_failure emailOk demoAuth
      ⟨some "nobody@example.com", some "hunter2"⟩
      ⟨some "user@example.com", some "wrongpass"⟩ "nobody@example.com"
      "hunter2" "user@example.com" "wrongpass" (by decide) (by decide)
      (by decide) (by decide)).1⟩

/-- C2 counterexample: a request with a syntactically valid email and a
present-but-empty password does not pass validation — the serializer
reports a blank error on the password field and the response is 400, so
authenticate is never reached.  This refutes the claim that such a request
passes the validation stage. -/
theorem C2_empty_password_counterexample :
    emailOk "user@example.com" = true ∧
    LoginSerializer.run_validation emailOk
        ⟨some "user@example.com", some ""⟩ =
      .invalid [("password", ["This field may not be blank."])] ∧
    (LoginAPIView.post emailOk demoAuth
        ⟨some "user@example.com", some ""⟩).1.status = 400 ∧
    (LoginAPIView.post emailOk demoAuth
        ⟨some "user@example.com", some ""⟩).2.authCalledWith = none := by
  refine ⟨by decide, by decide, by decide, by decide⟩

/-- C2 amended: a request whose password is present but empty (or
whitespace-only, which the field trims to empty) is rejected at the
validation stage: the response is 400, its body carries the blank error
under the password key, and authenticate is not called. -/
theorem C2_empty_password_rejected {P : Type} (validEmail : String → Bool)
    (auth : String → String → Option P) (d : RequestData) (pw : String)
    (hp : d.password = some pw) (hb : pyStrip pw = "") :
    (LoginAPIView.post validEmail auth d).1.status = 400 ∧
    ("password", JVal.strList ["This field may not be blank."]) ∈
      (LoginAPIView.post validEmail auth d).1.body ∧
    (LoginAPIView.post validEmail auth d).2.authCalledWith = none :=
  blank_password_400 validEmail auth d pw hp hb

/-- C2 amended witness: the empty password with a valid email is rejected
with 400, the blank error, and no authenticate call. -/
theorem C2_empty_password_rejected_witness :
    (LoginAPIView.post emailOk demoAuth
        ⟨some "user@example.com", some ""⟩).1.status = 400 ∧
    ("password", JVal.strList ["This field may not be blank."]) ∈
      (LoginAPIView.post emailOk demoAuth
        ⟨some "user@example.com", some ""⟩).1.body ∧
    (LoginAPIView.post emailOk demoAuth
        ⟨some "user@example.com", some ""⟩).2.authCalledWith = none :=
  C2_empty_password_rejected emailOk demoAuth
    ⟨some "user@example.com", some ""⟩ "" rfl (by decide)

/-- C5: a request missing the email field or the password field (or both)
is answered with status 400, and the body carries, for each missing field,
an entry keyed by that field name holding the list of error messages. -/
theorem C5_missing_fields_400 {P : Type} (validEmail : String → Bool)
    (auth : String → String → Option P) (d : RequestData)
    (h : d.email = none ∨ d.password = none) :
    (LoginAPIView.post validEmail auth d).1.status = 400 ∧
    (d.email = none →
      ("email", JVal.strList ["This field is required."]) ∈
        (LoginAPIView.post validEmail auth d).1.body) ∧
    (d.password = none →
      ("password", JVal.strList ["This field is required."]) ∈
        (LoginAPIView.post validEmail auth d).1.body) := by
  obtain ⟨oe, op⟩ := d
  rcases h with h | h
  · rcases hop : charFieldRunValidation op with w | ns <;>
      refine ⟨?_, ?_, ?_⟩ <;>
        simp_all [LoginAPIView.post, LoginSerializer.run_validation,
          emailFieldRunValidation, charFieldRunValidation, fieldErrors,
          errorsBody]
  · rcases hoe : emailFieldRunValidation validEmail oe with v | ms <;>
      refine ⟨?_, ?_, ?_⟩ <;>
        simp_all [LoginAPIView.post, LoginSerializer.run_validation,
          emailFieldRunValidation, charFieldRunValidation, fieldErrors,
          errorsBody]

/-- C5 witness: the empty payload gets a 400 naming both missing fields. -/
theorem C5_missing_fields_400_witness :
    (LoginAPIView.post emailOk demoAuth ⟨none, none⟩).1.status = 400 ∧
    ("email", JVal.strList ["This field is required."]) ∈
      (LoginAPIView.post emailOk demoAuth ⟨none, none⟩).1.body ∧
    ("password", JVal.strList ["This field is required."]) ∈
      (LoginAPIView.post emailOk demoAuth ⟨none, none⟩).1.body :=
  ⟨(C5_missing_fields_400 emailOk demoAuth ⟨none, none⟩ (Or.inl rfl)).1,
    (C5_missing_fields_400 emailOk demoAuth ⟨none, none⟩ (Or.inl rfl)).2.1 rfl,
    (C5_missing_fields_400 emailOk demoAuth ⟨none, none⟩ (Or.inl rfl)).2.2 rfl⟩

/-- C6: a request whose email field is present but not syntactically valid
(including the blank case) is answered with status 400, and authenticate is
not called. -/
theorem C6_invalid_email_400 {P : Type} (validEmail : String → Bool)
    (auth : String → String → Option P) (d : RequestData) (s : String)
    (hs : d.email = some s)
    (hbad : pyStrip s = "" ∨ validEmail (pyStrip s) = false) :
    (LoginAPIView.post validEmail auth d).1.status = 400 ∧
    (LoginAPIView.post validEmail auth d).2.authCalledWith = none := by
  have he : ∃ ms, emailFieldRunValidation validEmail (some s) = .errs ms := by
    by_cases hb : pyStrip s = ""
    · exact ⟨["This field may not be blank."],
        by simp [emailFieldRunValidation, hb]⟩
    · rcases hbad with hb2 | hv
      · exact absurd hb2 hb
      · exact ⟨["Enter a valid email address."],
          by simp [emailFieldRunValidation, hb, hv]⟩
  obtain ⟨ms, he⟩ := he
  rw [← hs] at he
  constructor <;>
    simp [LoginAPIView.post, LoginSerializer.run_validation, he]

/-- C6 witness: a string without an at sign is rejected with 400 and no
authenticate call. -/
theorem C6_invalid_email_400_witness :
    emailOk (pyStrip "notanemail") = false ∧
    (LoginAPIView.post emailOk demoAuth
        ⟨some "notanemail", some "hunter2"⟩).1.status = 400 ∧
    (LoginAPIView.post emailOk demoAuth
        ⟨some "notanemail", some "hunter2"⟩).2.authCalledWith = none :=
  ⟨by decide,
    (C6_invalid_email_400 emailOk demoAuth
      ⟨some "notanemail", some "hunter2"⟩ "notanemail" rfl
      (Or.inr (by decide))).1,
    (C6_invalid_email_400 emailOk demoAuth
      ⟨some "notanemail", some "hunter2"⟩ "notanemail" rfl
      (Or.inr (by decide))).2⟩

/-- C7: every request gets exactly one response, and it realises exactly
one of the three outcomes: 200 success, 400 validation error, or 401
invalid credentials. -/
theorem C7_exactly_one_outcome {P : Type} (validEmail : String → Bool)
    (auth : String → String → Option P) (d : RequestData) :
    ∃! o : Outcome,
      outcomeMatches o (LoginAPIView.post validEmail auth d).1 := by
  cases hrun : LoginSerializer.run_validation validEmail d with
  | valid e p =>
    cases ha : auth e p with
    | some u =>
      refine ⟨.success, ?_, ?_⟩
      · simp [outcomeMatches, LoginAPIView.post, hrun, ha]
      · intro o ho
        cases o <;> simp_all [outcomeMatches, LoginAPIView.post, hrun, ha]
    | none =>
      refine ⟨.invalidCredentials, ?_, ?_⟩
      · simp [outcomeMatches, LoginAPIView.post, hrun, ha]
      · intro o ho
        cases o <;> simp_all [outcomeMatches, LoginAPIView.post, hrun, ha]
  | invalid errors =>
    refine ⟨.validationError, ?_, ?_⟩
    · refine ⟨by simp [LoginAPIView.post, hrun], errors,
        run_validation_invalid_ne_nil validEmail d errors hrun, ?_⟩
      simp [LoginAPIView.post, hrun]
    · intro o ho
      cases o <;> simp_all [outcomeMatches, LoginAPIView.post, hrun]

/-- C8 counterexample: when the submitted password is the string
"Invalid credentials" and authentication fails, the 401 body contains the
submitted password verbatim, refuting the claim that the password value
never appears anywhere in the response body. -/
theorem C8_password_appears_counterexample :
    (LoginAPIView.post emailOk demoAuth
        ⟨some "user@example.com", some "Invalid credentials"⟩).1.status =
      401 ∧
    bodyContains
      (LoginAPIView.post emailOk demoAuth
        ⟨some "user@example.com", some "Invalid credentials"⟩).1.body
      "Invalid credentials" = true :=
  ⟨by decide, by decide⟩

/-- C8 amended: the response body is assembled from a fixed set of literal
strings and never incorporates the submitted password; hence any password
that is not a substring of one of those fixed literals does not appear
anywhere in the response body. -/
theorem C8_password_not_incorporated {P : Type} (validEmail : String → Bool)
    (auth : String → String → Option P) (d : RequestData) (pw : String)
    (hfixed : ∀ s ∈ fixedBodyStrings, strContains s pw = false) :
    bodyContains (LoginAPIView.post validEmail auth d).1.body pw = false := by
  have hsub := post_strings_fixed validEmail auth d
  rw [bodyContains, List.any_eq_false]
  intro x hx
  simp [hfixed x (hsub x hx)]

/-- C8 amended witness: the fixture password appears in no response body,
here on the 200 branch. -/
theorem C8_password_not_incorporated_witness :
    (∀ s ∈ fixedBodyStrings, strContains s "hunter2" = false) ∧
    bodyContains
      (LoginAPIView.post emailOk demoAuth
        ⟨some "user@example.com", some "hunter2"⟩).1.body "hunter2" =
      false :=
  ⟨by decide,
    C8_password_not_incorporated emailOk demoAuth
      ⟨some "user@example.com", some "hunter2"⟩ "hunter2" (by decide)⟩

/-- C9: a session is established for principal u exactly when the request
validates and authenticate returns u; on a validation failure or an
authentication failure no session is created. -/
theorem C9_session_iff_principal {P : Type} (validEmail : String → Bool)
    (auth : String → String → Option P) (d : RequestData) (u : P) :
    (LoginAPIView.post validEmail auth d).2.sessionUser = some u ↔
      ∃ e p, LoginSerializer.run_validation validEmail d = .valid e p ∧
        auth e p = some u := by
  cases hrun : LoginSerializer.run_validation validEmail d with
  | valid e p =>
    cases ha : auth e p with
    | some v =>
      simp only [LoginAPIView.post, hrun, ha, Option.some.injEq,
        SerializerOutcome.valid.injEq]
      constructor
      · rintro rfl
        exact ⟨e, p, ⟨rfl, rfl⟩, ha⟩
      · rintro ⟨e1, p1, ⟨rfl, rfl⟩, hau⟩
        exact Option.some.inj (ha.symm.trans hau)
    | none => simp [LoginAPIView.post, hrun, ha]
  | invalid errors => simp [LoginAPIView.post, hrun]

/-- C10: both fields trim surrounding whitespace during validation, so
authenticate is called on the trimmed email and password; a whitespace-only
password trims to empty and is rejected as blank with a 400. -/
theorem C10_whitespace_trimming {P : Type} (validEmail : String → Bool)
    (auth : String → String → Option P) (d : RequestData) (es ps : String)
    (he : d.email = some es) (hp : d.password = some ps) :
    (∀ e p, LoginSerializer.run_validation validEmail d = .valid e p →
        e = pyStrip es ∧ p = pyStrip ps ∧
        (LoginAPIView.post validEmail auth d).2.authCalledWith =
          some (pyStrip es, pyStrip ps)) ∧
    (pyStrip ps = "" →
        (LoginAPIView.post validEmail auth d).1.status = 400 ∧
        ("password", JVal.strList ["This field may not be blank."]) ∈
          (LoginAPIView.post validEmail auth d).1.body ∧
        (LoginAPIView.post validEmail auth d).2.authCalledWith = none) := by
  constructor
  · intro e p hv
    have hrun := hv
    rcases hee : emailFieldRunValidation validEmail d.email with v | ms
    · rcases hpp : charFieldRunValidation d.password with w | ns
      · simp only [LoginSerializer.run_validation, hee, hpp] at hrun
        obtain ⟨h1, h2⟩ : v = e ∧ w = p := by simpa using hrun
        rw [he] at hee
        rw [hp] at hpp
        have hes : e = pyStrip es := h1 ▸ emailField_ok_val validEmail es v hee
        have hps : p = pyStrip ps := h2 ▸ charField_ok_val ps w hpp
        subst hes
        subst hps
        refine ⟨rfl, rfl, ?_⟩
        cases ha : auth (pyStrip es) (pyStrip ps) <;>
          simp [LoginAPIView.post, hv, ha]
      · simp only [LoginSerializer.run_validation, hee, hpp,
          fieldErrors] at hrun
        simp at hrun
    · rcases hpp : charFieldRunValidation d.password with w | ns <;>
        simp only [LoginSerializer.run_validation, hee, hpp,
          fieldErrors] at hrun <;>
        simp at hrun
  · intro hb
    exact blank_password_400 validEmail auth d ps hp hb

/-- C10 witness: surrounding whitespace on both fields is stripped and the
trimmed pair is what authenticate receives. -/
theorem C10_whitespace_trimming_witness :
    LoginSerializer.run_validation emailOk
        ⟨some " user@example.com ", some " hunter2 "⟩ =
      .valid "user@example.com" "hunter2" ∧
    (LoginAPIView.post emailOk demoAuth
        ⟨some " user@example.com ", some " hunter2 "⟩).2.authCalledWith =
      some ("user@example.com", "hunter2") := by
  refine ⟨by decide, ?_⟩
  have h := (C10_whitespace_trimming emailOk demoAuth
    ⟨some " user@example.com ", some " hunter2 "⟩ " user@example.com "
    " hunter2 " rfl rfl).1 "user@example.com" "hunter2" (by decide)
  exact h.2.2.trans (by decide)

end DjangoStartKit
